import Mathlib

/-!
Verification of the user-profile provisioning protocol and the client auth
state reconciler of the AI-Tutor-Platform repository.

Shallow embedding conventions:
* JavaScript `Date` values and SQL timestamps are modelled by their ISO-8601
  strings; `new Date(s)` keeps the string, `d.toISOString().split('T')[0]`
  becomes taking the part before `"T"`.
* JS `undefined`/`null` and SQL `NULL` are modelled by `Option.none`.
* JS truthiness on strings (`""` is falsy) and numbers (`0` is falsy) is
  modelled explicitly by the `jsOrD` / `jsOrZ` / `truthyS` helpers; arrays
  and objects are always truthy, so `||` on them is plain `Option.orElse`.
* The store is a list of `ProfileRow`s; the `created_at` / `updated_at`
  timestamp columns (maintained by the store and by the
  `update_updated_at_column` trigger) carry no data the claims mention and
  are outside the model.
* Remote calls that can fail for reasons outside the data model (network,
  forced database errors) take an explicit optional fault argument; `none`
  means no externally injected failure.
-/

/-- A client-side error object as surfaced by the hosted-store SDK:
`code` is the PostgREST/Postgres error code (`none` for plain JS `Error`s),
`message` the human-readable text. -/
structure SbErr where
  code : Option String
  message : String
  deriving DecidableEq, Repr

/-- The `.single()` zero-row error, compared against by `getUserProfile`. -/
def pgrst116Err : SbErr :=
  { code := some "PGRST116"
    message := "JSON object requested, multiple (or no) rows returned" }

/-- Postgres unique-constraint violation as seen by the client SDK. -/
def conflictErr : SbErr :=
  { code := some "23505"
    message := "duplicate key value violates unique constraint" }

/-- `new Error('No authenticated user')` thrown in `ensureUserProfile`. -/
def noAuthUserErr : SbErr :=
  { code := none, message := "No authenticated user" }

/-- Store-side error classes relevant to the provisioning trigger's
exception handlers: `unique_violation` versus everything else
(`WHEN OTHERS`). -/
inductive DbError where
  | uniqueViolation
  | otherError (msg : String)
  deriving DecidableEq, Repr

/-- The per-channel notification toggles of the `preferences` blob
(database shape: every key optional). -/
structure NotifDb where
  email : Option Bool := none
  push : Option Bool := none
  assignments : Option Bool := none
  grades : Option Bool := none
  announcements : Option Bool := none
  deriving DecidableEq, Repr

/-- The `preferences` jsonb blob (database shape). -/
structure PreferencesDb where
  notifications : Option NotifDb := none
  theme : Option String := none
  language : Option String := none
  deriving DecidableEq, Repr

/-- The `academic_info` jsonb blob (database shape). -/
structure AcademicDb where
  studentId : Option String := none
  major : Option String := none
  year : Option String := none
  gpa : Option Int := none
  enrolledSubjects : Option (List String) := none
  deriving DecidableEq, Repr

/-- Column default for `academic_info`: the empty jsonb object. -/
def defaultAcadDb : AcademicDb := {}

/-- Column default for `preferences` from the migration: all notification
channels on except announcements, theme light, language en. -/
def defaultPrefsDb : PreferencesDb :=
  { notifications := some
      { email := some true, push := some true, assignments := some true
        grades := some true, announcements := some false }
    theme := some "light"
    language := some "en" }

/-- One row of the `user_profiles` table (timestamp columns omitted, see
module comment). `username` is nullable and unique when not null. -/
structure ProfileRow where
  id : String
  username : Option String := none
  first_name : String := ""
  last_name : String := ""
  bio : Option String := none
  date_of_birth : Option String := none
  phone : Option String := none
  location : Option String := none
  avatar_url : Option String := none
  academic_info : AcademicDb := defaultAcadDb
  preferences : PreferencesDb := defaultPrefsDb
  deriving DecidableEq, Repr

/-- The free-form identity metadata bag (`raw_user_meta_data` /
`user_metadata`), restricted to the keys the code reads. -/
structure Metadata where
  username : Option String := none
  firstName : Option String := none
  first_name : Option String := none
  lastName : Option String := none
  last_name : Option String := none
  avatar : Option String := none
  bio : Option String := none
  dateOfBirth : Option String := none
  phone : Option String := none
  location : Option String := none
  notifications : Option NotifDb := none
  theme : Option String := none
  language : Option String := none
  studentId : Option String := none
  major : Option String := none
  year : Option String := none
  gpa : Option Int := none
  enrolledSubjects : Option (List String) := none
  deriving DecidableEq, Repr

/-- The Identity record owned by the external auth service, restricted to
the fields the code reads. -/
structure IdentUser where
  id : String
  email : Option String := none
  user_metadata : Option Metadata := none
  created_at : String := ""
  email_confirmed_at : Option String := none
  deriving DecidableEq, Repr

/-- JS `a || d` on an optional string: empty string is falsy. -/
def jsOrD (a : Option String) (d : String) : String :=
  match a with
  | some s => if s = "" then d else s
  | none => d

/-- JS `a || d` on an optional number: `0` is falsy. -/
def jsOrZ (a : Option Int) (d : Int) : Int :=
  match a with
  | some n => if n = 0 then d else n
  | none => d

/-- JS truthiness filter on an optional string (used for ternaries). -/
def truthyS (a : Option String) : Option String :=
  match a with
  | some s => if s = "" then none else some s
  | none => a

/-- JS truthiness filter on an optional number: `0` is falsy. -/
def truthyZ (a : Option Int) : Option Int :=
  match a with
  | some n => if n = 0 then none else some n
  | none => a

/-- `email.split('@')[0]`: the part of the address before the first `@`
(the whole string when no `@` occurs). -/
def localPart (email : String) : String :=
  String.mk (email.toList.takeWhile (fun c => c != '@'))

/-- `d.toISOString().split('T')[0]`: the calendar-date part of an ISO
timestamp (the part before the first `T`). -/
def isoDatePart (d : String) : String :=
  String.mk (d.toList.takeWhile (fun c => c != 'T'))

/-- The templated default avatar of the client code:
`https://api.dicebear.com/7.x/avataaars/svg?seed=${email}` (JS string
interpolation renders an undefined email as the text `undefined`). -/
def dicebearSeed (email : Option String) : String :=
  "https://api.dicebear.com/7.x/avataaars/svg?seed=" ++ email.getD "undefined"

/-! ## The provisioning trigger `handle_new_user`
(migration 20250625112546_shrill_cave.sql) -/

/-- SQL `split_part(email, '@', 1)` lifted to the nullable email: `NULL`
propagates (a `NULL` argument yields `NULL`). -/
def splitPartAt (email : Option String) : Option String :=
  email.map localPart

/-- The base candidate username of the trigger:
`COALESCE(meta->>'username', meta->>'firstName', meta->>'first_name',
split_part(email, '@', 1))`. -/
def baseUsername (meta : Metadata) (email : Option String) : Option String :=
  meta.username <|> meta.firstName <|> meta.first_name <|> splitPartAt email

/-- SQL `EXISTS (SELECT 1 FROM user_profiles WHERE username = u)`: a `NULL`
candidate compares as unknown, so the test is false. -/
def usernameExists (db : List ProfileRow) (u : Option String) : Bool :=
  match u with
  | none => false
  | some s => db.any (fun r => r.username == some s)

/-- Whether the table already holds a row with this primary key. -/
def idExists (db : List ProfileRow) (i : String) : Bool :=
  db.any (fun r => r.id == i)

/-- The trigger's uniqueness loop.  `counter` is `username_counter`, `cur`
the current `new_username`.  While a profile with the candidate handle
exists, the counter is incremented and the base candidate (re-computed by
the same `COALESCE`; `NULL || text` is `NULL`) gets the counter appended;
once the counter passes 1000 the candidate is replaced by
`'user' || floor(random() * 100000)` and the loop exits unconditionally
(`r2` is the random draw, reduced to the range the source draws from).
Besides the resulting `new_username` the model returns the number of
iterations that re-entered the loop with an appended suffix, and whether
the bound-escape branch fired. -/
def usernameLoop (db : List ProfileRow) (base : Option String) (r2 : Nat)
    (counter : Nat) (cur : Option String) : Option String × Nat × Bool :=
  if usernameExists db cur then
    let c' := counter + 1
    let cand := base.map (fun b => b ++ toString c')
    if c' > 1000 then
      (some ("user" ++ toString (r2 % 100000)), 0, true)
    else
      let (res, n, esc) := usernameLoop db base r2 c' cand
      (res, n + 1, esc)
  else
    (cur, 0, false)
  termination_by 1001 - counter
  decreasing_by simp_wf; omega

/-- The row the trigger inserts: id and resolved username, names coalesced
from metadata with `''` fallback, avatar from metadata or the dicebear
template (SQL `'…' || email`, so a `NULL` email gives a `NULL` avatar);
all other columns take their table defaults. -/
def triggerRow (u : IdentUser) (uname : Option String) : ProfileRow :=
  let meta := u.user_metadata.getD {}
  { id := u.id
    username := uname
    first_name := (meta.firstName <|> meta.first_name).getD ""
    last_name := (meta.lastName <|> meta.last_name).getD ""
    avatar_url := meta.avatar <|>
      u.email.map (fun e => "https://api.dicebear.com/7.x/avataaars/svg?seed=" ++ e) }

/-- Store-side `INSERT` semantics: an injected fault raises; otherwise a
duplicate primary key or duplicate non-null username raises
`unique_violation`; otherwise the row is appended. -/
def insertProfile (db : List ProfileRow) (row : ProfileRow)
    (fault : Option DbError) : Except DbError (List ProfileRow) :=
  match fault with
  | some e => Except.error e
  | none =>
    if idExists db row.id || usernameExists db row.username then
      Except.error DbError.uniqueViolation
    else
      Except.ok (db ++ [row])

/-- The username the trigger resolves before its first insert attempt: the
`COALESCE` base, replaced by `'user' || floor(random()*10000)` when null or
empty (`r1`), then run through the uniqueness loop (`r2` for the escape
draw). -/
def resolvedUsername (db : List ProfileRow) (u : IdentUser)
    (r1 r2 : Nat) : Option String :=
  let meta := u.user_metadata.getD {}
  let base := baseUsername meta u.email
  let cur0 : Option String :=
    if base = none ∨ base = some "" then
      some ("user" ++ toString (r1 % 10000))
    else base
  (usernameLoop db base r2 0 cur0).1

/-- `public.handle_new_user()`: fired after an Identity insert.  `r1`, `r2`,
`r3` are the three potential random draws (step-2 synthesis, loop escape,
conflict retry); `fault1`/`fault2` inject store failures into the first and
the retry insert.  `Except.ok db'` means the trigger returned normally and
the enclosing identity-creation transaction commits with profile table
`db'`; `Except.error e` means the error escaped the trigger and aborted the
transaction.  The first insert's `unique_violation` is answered by exactly
one retry with `'user' || floor(random()*100000)`; any other first-insert
error is logged and swallowed (`WHEN OTHERS`).  An error raised by the
retry insert occurs inside the `unique_violation` handler and is not
caught. -/
def handle_new_user (db : List ProfileRow) (u : IdentUser)
    (r1 r2 r3 : Nat) (fault1 fault2 : Option DbError) :
    Except DbError (List ProfileRow) :=
  let uname := resolvedUsername db u r1 r2
  match insertProfile db (triggerRow u uname) fault1 with
  | Except.ok db' => Except.ok db'
  | Except.error DbError.uniqueViolation =>
    let retryName := some ("user" ++ toString (r3 % 100000))
    match insertProfile db (triggerRow u retryName) fault2 with
    | Except.ok db' => Except.ok db'
    | Except.error e => Except.error e
  | Except.error (DbError.otherError _) => Except.ok db

/-! ## Client profile helpers (src/lib/supabase.ts) -/

/-- `.from('user_profiles').select('*').eq('id', userId).single()`: an
injected fault is returned as-is; otherwise exactly one matching row
succeeds and any other cardinality yields the PGRST116 error. -/
def selectSingle (db : List ProfileRow) (userId : String)
    (fault : Option SbErr) : Except SbErr ProfileRow :=
  match fault with
  | some e => Except.error e
  | none =>
    match db.filter (fun r => r.id == userId) with
    | [r] => Except.ok r
    | _ => Except.error pgrst116Err

/-- `getUserProfile`: a fetch error whose code is not `PGRST116` is
returned; the "not found" error (and success) yield `error = none`. -/
def getUserProfile (db : List ProfileRow) (userId : String)
    (fault : Option SbErr) : Option ProfileRow × Option SbErr :=
  match selectSingle db userId fault with
  | Except.error e =>
    if e.code ≠ some "PGRST116" then (none, some e) else (none, none)
  | Except.ok r => (some r, none)

/-- A profile-update payload after the undefined-valued keys have been
removed: a `none` field is exactly a key absent from the object sent to the
store.  (`updateProfile` never places `id` or `username` in the payload, so
the payload has no such fields.) -/
structure ProfilePayload where
  first_name : Option String := none
  last_name : Option String := none
  bio : Option String := none
  date_of_birth : Option String := none
  phone : Option String := none
  location : Option String := none
  avatar_url : Option String := none
  academic_info : Option AcademicDb := none
  preferences : Option PreferencesDb := none
  deriving DecidableEq, Repr

/-- Store-side `UPDATE` of one row: only the keys present in the payload
are written, every other column keeps its value. -/
def applyPayload (r : ProfileRow) (p : ProfilePayload) : ProfileRow :=
  { r with
    first_name := p.first_name.getD r.first_name
    last_name := p.last_name.getD r.last_name
    bio := match p.bio with | some b => some b | none => r.bio
    date_of_birth := match p.date_of_birth with | some d => some d | none => r.date_of_birth
    phone := match p.phone with | some v => some v | none => r.phone
    location := match p.location with | some v => some v | none => r.location
    avatar_url := match p.avatar_url with | some v => some v | none => r.avatar_url
    academic_info := p.academic_info.getD r.academic_info
    preferences := p.preferences.getD r.preferences }

/-- `updateUserProfileData`: filters out undefined values (already
reflected in `ProfilePayload`), updates the row matched by id, and returns
the updated row via `.select().single()`.  Result: `(data, error, table
afterwards)`. -/
def updateUserProfileData (db : List ProfileRow) (userId : String)
    (p : ProfilePayload) (fault : Option SbErr) :
    Option ProfileRow × Option SbErr × List ProfileRow :=
  match fault with
  | some e => (none, some e, db)
  | none =>
    match db.filter (fun r => r.id == userId) with
    | [r] =>
      (some (applyPayload r p),
       none,
       db.map (fun x => if x.id == userId then applyPayload x p else x))
    | _ => (none, some pgrst116Err, db)

/-- Client-side `INSERT … .select().single()`: an injected fault, a
duplicate primary key, or a duplicate non-null username yields the
Postgres 23505 error surfaced by the SDK; success returns the inserted
row and the grown table. -/
def clientInsert (db : List ProfileRow) (row : ProfileRow)
    (fault : Option SbErr) : Except SbErr (ProfileRow × List ProfileRow) :=
  match fault with
  | some e => Except.error e
  | none =>
    if idExists db row.id || usernameExists db row.username then
      Except.error conflictErr
    else
      Except.ok (row, db ++ [row])

/-- `createUserProfile`: wraps the insert, mapping an error to
`{ data: null, error }`.  Result: `(data, error, table afterwards)`. -/
def createUserProfile (db : List ProfileRow) (row : ProfileRow)
    (fault : Option SbErr) : Option ProfileRow × Option SbErr × List ProfileRow :=
  match clientInsert db row fault with
  | Except.ok (r, db') => (some r, none, db')
  | Except.error e => (none, some e, db)

/-- The minimal profile `ensureUserProfile` constructs client-side when no
row was found: username from the registration data or the email local
part (JS `||`, empty strings falsy), names likewise, avatar from the data
or the dicebear template, the fixed default preferences block; columns it
does not supply take their table defaults on insert. -/
def clientProfileData (userId : String) (userData : Option Metadata)
    (user : IdentUser) : ProfileRow :=
  { id := userId
    username := some (jsOrD (userData.bind (fun d => d.username))
      (jsOrD (user.email.map localPart) ""))
    first_name := jsOrD (userData.bind (fun d => d.firstName))
      (jsOrD (userData.bind (fun d => d.first_name)) "")
    last_name := jsOrD (userData.bind (fun d => d.lastName))
      (jsOrD (userData.bind (fun d => d.last_name)) "")
    avatar_url := some (jsOrD (userData.bind (fun d => d.avatar))
      (dicebearSeed user.email))
    preferences := defaultPrefsDb }

/-- The binding `const { data: user } = await getCurrentUser()` in
`ensureUserProfile`: `getCurrentUser` returns `{ user, error }`, an object
with no `data` property, so the destructured value is `undefined` no
matter what session exists — the session's actual user (`current`) never
reaches the binding. -/
def getCurrentUserData (_current : Option IdentUser) : Option IdentUser :=
  none

/-- `ensureUserProfile`: fetch the profile (any fetch error is ignored —
only the presence of a row is tested); if a row exists return it.
Otherwise bind the current user via `const { data: user } =
await getCurrentUser()` — always `undefined`, see `getCurrentUserData` —
so the `if (!user)` guard always fires and the function returns the
`No authenticated user` error; the client-side create under the guard is
dead code, kept here as the unreachable `some` arm.  The table is read at
`dbFetch` and would be written at `dbCreate`.
Result: `((data, error), table afterwards)`. -/
def ensureUserProfile (dbFetch dbCreate : List ProfileRow) (userId : String)
    (userData : Option Metadata) (fetchFault : Option SbErr)
    (current : Option IdentUser) (createFault : Option SbErr) :
    (Option ProfileRow × Option SbErr) × List ProfileRow :=
  match getUserProfile dbFetch userId fetchFault with
  | (some p, _) => ((some p, none), dbCreate)
  | (none, _) =>
    match getCurrentUserData current with
    | none => ((none, some noAuthUserErr), dbCreate)
    | some user =>
      match createUserProfile dbCreate (clientProfileData userId userData user)
          createFault with
      | (d, e, db') => ((d, e), db')

/-! ## Client auth state reconciler (src/contexts/AuthContext.tsx) -/

/-- Notification toggles of the derived view model (all resolved). -/
structure NotifView where
  email : Bool
  push : Bool
  assignments : Bool
  grades : Bool
  announcements : Bool
  deriving DecidableEq, Repr

/-- Preferences of the derived view model (all resolved). -/
structure PreferencesView where
  notifications : NotifView
  theme : String
  language : String
  deriving DecidableEq, Repr

/-- Academic info of the derived view model (all resolved). -/
structure AcademicView where
  studentId : String
  major : String
  year : String
  gpa : Int
  enrolledSubjects : List String
  deriving DecidableEq, Repr

/-- The denormalized view model `AuthUser` presented to the UI
(`Date` fields modelled by their source strings). -/
structure AuthUser where
  id : String
  email : String
  username : String
  firstName : String
  lastName : String
  avatar : String
  bio : String
  dateOfBirth : Option String
  phone : String
  location : String
  joinDate : String
  lastLogin : String
  isEmailVerified : Bool
  preferences : PreferencesView
  academicInfo : AcademicView
  deriving DecidableEq, Repr

/-- A `Partial<AuthUser>`: `none` is a field the caller did not supply. -/
structure AuthUserUpdate where
  id : Option String := none
  email : Option String := none
  username : Option String := none
  firstName : Option String := none
  lastName : Option String := none
  avatar : Option String := none
  bio : Option String := none
  dateOfBirth : Option String := none
  phone : Option String := none
  location : Option String := none
  joinDate : Option String := none
  lastLogin : Option String := none
  isEmailVerified : Option Bool := none
  preferences : Option PreferencesView := none
  academicInfo : Option AcademicView := none
  deriving DecidableEq, Repr

/-- JS object spread `{ ...u, ...upd }`: every supplied field takes the
caller's value, every other field keeps `u`'s value. -/
def authUserSpread (u : AuthUser) (upd : AuthUserUpdate) : AuthUser :=
  { id := upd.id.getD u.id
    email := upd.email.getD u.email
    username := upd.username.getD u.username
    firstName := upd.firstName.getD u.firstName
    lastName := upd.lastName.getD u.lastName
    avatar := upd.avatar.getD u.avatar
    bio := upd.bio.getD u.bio
    dateOfBirth := match upd.dateOfBirth with
      | some d => some d
      | none => u.dateOfBirth
    phone := upd.phone.getD u.phone
    location := upd.location.getD u.location
    joinDate := upd.joinDate.getD u.joinDate
    lastLogin := upd.lastLogin.getD u.lastLogin
    isEmailVerified := upd.isEmailVerified.getD u.isEmailVerified
    preferences := upd.preferences.getD u.preferences
    academicInfo := upd.academicInfo.getD u.academicInfo }

/-- The reconciler state. -/
structure AuthState where
  user : Option AuthUser
  isAuthenticated : Bool
  isLoading : Bool
  error : Option String
  deriving DecidableEq, Repr

/-- The reducer actions. -/
inductive AuthAction where
  | LOGIN_START
  | LOGIN_SUCCESS (payload : AuthUser)
  | LOGIN_FAILURE (payload : String)
  | LOGOUT
  | UPDATE_PROFILE (payload : AuthUserUpdate)
  | SET_LOADING (payload : Bool)
  deriving DecidableEq, Repr

/-- `authReducer`, case for case from the source. -/
def authReducer (state : AuthState) (action : AuthAction) : AuthState :=
  match action with
  | AuthAction.LOGIN_START =>
    { state with isLoading := true, error := none }
  | AuthAction.LOGIN_SUCCESS payload =>
    { state with
      user := some payload
      isAuthenticated := true
      isLoading := false
      error := none }
  | AuthAction.LOGIN_FAILURE payload =>
    { state with
      user := none
      isAuthenticated := false
      isLoading := false
      error := some payload }
  | AuthAction.LOGOUT =>
    { state with
      user := none
      isAuthenticated := false
      isLoading := false
      error := none }
  | AuthAction.UPDATE_PROFILE payload =>
    { state with
      user := match state.user with
        | some u => some (authUserSpread u payload)
        | none => none }
  | AuthAction.SET_LOADING payload =>
    { state with isLoading := payload }

/-- The reconciler's initial state. -/
def initialState : AuthState :=
  { user := none, isAuthenticated := false, isLoading := true, error := none }

/-- `convertToAuthUser`: merges the Identity and the (possibly absent)
Profile row into the view model.  `now` is the `new Date()` of
`lastLogin`.  The fallback chains are JS `||` on strings (empty string
falsy) and numbers (`0` falsy), `??` on the notification booleans, plain
truthiness ternary on `dateOfBirth`, and `||` (objects always truthy) on
`enrolledSubjects`. -/
def convertToAuthUser (user : IdentUser) (profile : Option ProfileRow)
    (now : String) : AuthUser :=
  let m := user.user_metadata.getD {}
  { id := user.id
    email := user.email.getD ""
    username := jsOrD (profile.bind (fun p => p.username))
      (jsOrD m.username (jsOrD (user.email.map localPart) ""))
    firstName := jsOrD (profile.map (fun p => p.first_name))
      (jsOrD m.firstName (jsOrD m.first_name ""))
    lastName := jsOrD (profile.map (fun p => p.last_name))
      (jsOrD m.lastName (jsOrD m.last_name ""))
    avatar := jsOrD (profile.bind (fun p => p.avatar_url))
      (jsOrD m.avatar (dicebearSeed user.email))
    bio := jsOrD (profile.bind (fun p => p.bio)) (jsOrD m.bio "")
    dateOfBirth := match truthyS (profile.bind (fun p => p.date_of_birth)) with
      | some d => some d
      | none => truthyS m.dateOfBirth
    phone := jsOrD (profile.bind (fun p => p.phone)) (jsOrD m.phone "")
    location := jsOrD (profile.bind (fun p => p.location)) (jsOrD m.location "")
    joinDate := user.created_at
    lastLogin := now
    isEmailVerified := user.email_confirmed_at.isSome
    preferences :=
      { notifications :=
          { email := ((profile.bind (fun p => p.preferences.notifications.bind
                (fun n => n.email))) <|>
              (m.notifications.bind (fun n => n.email))).getD true
            push := ((profile.bind (fun p => p.preferences.notifications.bind
                (fun n => n.push))) <|>
              (m.notifications.bind (fun n => n.push))).getD true
            assignments := ((profile.bind (fun p => p.preferences.notifications.bind
                (fun n => n.assignments))) <|>
              (m.notifications.bind (fun n => n.assignments))).getD true
            grades := ((profile.bind (fun p => p.preferences.notifications.bind
                (fun n => n.grades))) <|>
              (m.notifications.bind (fun n => n.grades))).getD true
            announcements := ((profile.bind (fun p => p.preferences.notifications.bind
                (fun n => n.announcements))) <|>
              (m.notifications.bind (fun n => n.announcements))).getD false }
        theme := jsOrD (profile.bind (fun p => p.preferences.theme))
          (jsOrD m.theme "light")
        language := jsOrD (profile.bind (fun p => p.preferences.language))
          (jsOrD m.language "en") }
    academicInfo :=
      { studentId := jsOrD (profile.bind (fun p => p.academic_info.studentId))
          (jsOrD m.studentId "")
        major := jsOrD (profile.bind (fun p => p.academic_info.major))
          (jsOrD m.major "")
        year := jsOrD (profile.bind (fun p => p.academic_info.year))
          (jsOrD m.year "")
        gpa := jsOrZ (profile.bind (fun p => p.academic_info.gpa))
          (jsOrZ m.gpa 0)
        enrolledSubjects := ((profile.bind (fun p => p.academic_info.enrolledSubjects)) <|>
          m.enrolledSubjects).getD [] } }

/-- Lift the view-model `academicInfo` blob to the column shape when the
caller supplies it whole in an update. -/
def acadViewToDb (a : AcademicView) : AcademicDb :=
  { studentId := some a.studentId
    major := some a.major
    year := some a.year
    gpa := some a.gpa
    enrolledSubjects := some a.enrolledSubjects }

/-- Lift the view-model `preferences` blob to the column shape when the
caller supplies it whole in an update. -/
def prefsViewToDb (p : PreferencesView) : PreferencesDb :=
  { notifications := some
      { email := some p.notifications.email
        push := some p.notifications.push
        assignments := some p.notifications.assignments
        grades := some p.notifications.grades
        announcements := some p.notifications.announcements }
    theme := some p.theme
    language := some p.language }

/-- `updateProfile`'s translation of the caller's view-model fields to
database columns, with `dateOfBirth?.toISOString().split('T')[0]` taking
the calendar-date part, followed by the removal of every key whose value
is undefined (a `none` field is an absent key).  `id` and `username` are
never part of the payload. -/
def profileUpdatesOf (upd : AuthUserUpdate) : ProfilePayload :=
  { first_name := upd.firstName
    last_name := upd.lastName
    bio := upd.bio
    date_of_birth := upd.dateOfBirth.map isoDatePart
    phone := upd.phone
    location := upd.location
    avatar_url := upd.avatar
    academic_info := upd.academicInfo.map acadViewToDb
    preferences := upd.preferences.map prefsViewToDb }

/-- The reconciler's `updateProfile` operation.  With no current user it
returns at once.  Otherwise: set the loading flag, write the stripped
payload to the profile row; on a write error rethrow it to the caller
(clearing the loading flag in `finally`) without dispatching any user
mutation; on success, best-effort mirror name and avatar into the identity
metadata (`mirrorFault` — its failure is only logged and affects nothing),
dispatch `UPDATE_PROFILE` with exactly the caller's fields, and clear the
loading flag.  Result: `(state afterwards, table afterwards, outcome)`. -/
def updateProfile (st : AuthState) (upd : AuthUserUpdate)
    (db : List ProfileRow) (writeFault : Option SbErr)
    (mirrorFault : Option SbErr) :
    AuthState × List ProfileRow × Except String Unit :=
  match st.user with
  | none => (st, db, Except.ok ())
  | some u =>
    let st1 := authReducer st (AuthAction.SET_LOADING true)
    match updateUserProfileData db u.id (profileUpdatesOf upd) writeFault with
    | (_, some e, db') =>
      (authReducer st1 (AuthAction.SET_LOADING false), db', Except.error e.message)
    | (_, none, db') =>
      let _ := mirrorFault
      let st2 := authReducer st1 (AuthAction.UPDATE_PROFILE upd)
      (authReducer st2 (AuthAction.SET_LOADING false), db', Except.ok ())

/-- How many rows of the table carry this identity id. -/
def countId (db : List ProfileRow) (i : String) : Nat :=
  (db.filter (fun r => r.id == i)).length

/-! ## Concrete fixtures for counterexamples and witnesses -/

/-- An identity with only an email, registering while the store rejects
both insert attempts. -/
def c1User : IdentUser := { id := "id-1", email := some "alice@example.com" }

/-- The identity whose profile row a concurrent actor creates first. -/
def c2User : IdentUser := { id := "id-2", email := some "bob@example.com" }

/-- The row the concurrent actor created between fetch and create. -/
def c2Row : ProfileRow := { id := "id-2", username := some "bob" }

/-- An identity with a fresh id and email, logged in for the
fetch-or-create runs. -/
def c6User : IdentUser := { id := "id-6", email := some "carol@example.com" }

/-- A profile row whose `first_name` column holds the explicit (default)
empty string — present, but JS-falsy. -/
def c7Profile : ProfileRow := { id := "id-7" }

/-- An identity whose metadata carries a first name, while its profile row
holds the empty string. -/
def c7User : IdentUser :=
  { id := "id-7", email := some "carol@example.com"
    user_metadata := some { firstName := some "Bob" } }

/-- The identity of the spec's example: metadata is just the email, no
profile row exists. -/
def aliceUser : IdentUser := { id := "id-a", email := some "alice@example.com" }

/-- The update of the spec's example: only `bio` is supplied. -/
def updBioX : AuthUserUpdate := { bio := some "x" }

/-- A stored row with every data column populated, to watch for
overwrites. -/
def rowFull : ProfileRow :=
  { id := "id-9", username := some "nina", first_name := "Nina"
    last_name := "Vale", bio := some "old bio", date_of_birth := some "1990-01-01"
    phone := some "555", location := some "Porto"
    avatar_url := some "https://example.com/a.png" }

/-- A fully resolved view-model user for the reconciler fixtures. -/
def userFull : AuthUser :=
  { id := "id-9", email := "nina@example.com", username := "nina"
    firstName := "Nina", lastName := "Vale", avatar := "https://example.com/a.png"
    bio := "old bio", dateOfBirth := some "1990-01-01", phone := "555"
    location := "Porto", joinDate := "2024-01-01", lastLogin := "t"
    isEmailVerified := true
    preferences :=
      { notifications :=
          { email := true, push := true, assignments := true
            grades := true, announcements := false }
        theme := "light", language := "en" }
    academicInfo :=
      { studentId := "", major := "", year := "", gpa := 0
        enrolledSubjects := [] } }

/-- An authenticated reconciler state holding `userFull`. -/
def stateFull : AuthState :=
  { user := some userFull, isAuthenticated := true, isLoading := false
    error := none }

/-- An injected remote-write failure. -/
def errBoom : SbErr := { code := some "500", message := "boom" }

/-! ## Helper lemmas -/

theorem jsOrD_eq_truthy (a : Option String) (d : String) :
    jsOrD a d = (truthyS a).getD d := by
  cases a with
  | none => rfl
  | some s =>
    by_cases h : s = "" <;> simp [jsOrD, truthyS, h]

theorem jsOrZ_eq_truthy (a : Option Int) (d : Int) :
    jsOrZ a d = (truthyZ a).getD d := by
  cases a with
  | none => rfl
  | some n =>
    by_cases h : n = 0 <;> simp [jsOrZ, truthyZ, h]

theorem orElse_getD {α : Type} (a b : Option α) (d : α) :
    (a <|> b).getD d = a.getD (b.getD d) := by
  cases a <;> simp

/-! ## C9 -/

/-- C9: in every reconciler state reachable from `initialState` by a
sequence of reducer actions, `isAuthenticated` agrees with the user field
being non-null, and every single reducer action preserves that
invariant. -/
theorem C9_reducer_auth_invariant :
    (∀ acts : List AuthAction,
      (acts.foldl authReducer initialState).isAuthenticated =
        (acts.foldl authReducer initialState).user.isSome) ∧
    (∀ (s : AuthState) (a : AuthAction),
      s.isAuthenticated = s.user.isSome →
      (authReducer s a).isAuthenticated = (authReducer s a).user.isSome) := by
  have pres : ∀ (s : AuthState) (a : AuthAction),
      s.isAuthenticated = s.user.isSome →
      (authReducer s a).isAuthenticated = (authReducer s a).user.isSome := by
    intro s a h
    cases a with
    | LOGIN_START => simpa [authReducer] using h
    | LOGIN_SUCCESS p => simp [authReducer]
    | LOGIN_FAILURE p => simp [authReducer]
    | LOGOUT => simp [authReducer]
    | UPDATE_PROFILE p =>
      cases hu : s.user with
      | none => simp [authReducer, hu, hu ▸ h]
      | some u => simp [authReducer, hu, hu ▸ h]
    | SET_LOADING b => simpa [authReducer] using h
  refine ⟨?_, pres⟩
  intro acts
  have main : ∀ (s : AuthState), s.isAuthenticated = s.user.isSome →
      ∀ (l : List AuthAction),
      (l.foldl authReducer s).isAuthenticated =
        (l.foldl authReducer s).user.isSome := by
    intro s hs l
    induction l generalizing s with
    | nil => simpa using hs
    | cons a l ih => exact ih (authReducer s a) (pres s a hs)
  exact main initialState (by simp [initialState]) acts

/-- Witness for C9: the preservation half applied at the initial state and
the logout action. -/
theorem C9_witness :
    (authReducer initialState AuthAction.LOGOUT).isAuthenticated =
      (authReducer initialState AuthAction.LOGOUT).user.isSome :=
  C9_reducer_auth_invariant.2 initialState AuthAction.LOGOUT (by decide)

/-! ## C10 -/

/-- C10: `getUserProfile` turns the store's "row not found" result
(PGRST116) into success with both data and error null — a missing row is
not an error — while any fetch failure with a different code is returned,
and every non-null error it ever returns has a code other than
PGRST116. -/
theorem C10_not_found_is_success :
    (∀ (db : List ProfileRow) (userId : String),
      db.filter (fun r => r.id == userId) = [] →
      getUserProfile db userId none = (none, none)) ∧
    (∀ (db : List ProfileRow) (userId : String) (e : SbErr),
      e.code = some "PGRST116" →
      getUserProfile db userId (some e) = (none, none)) ∧
    (∀ (db : List ProfileRow) (userId : String) (e : SbErr),
      e.code ≠ some "PGRST116" →
      getUserProfile db userId (some e) = (none, some e)) ∧
    (∀ (db : List ProfileRow) (userId : String) (fault : Option SbErr)
      (d : Option ProfileRow) (e : SbErr),
      getUserProfile db userId fault = (d, some e) →
      e.code ≠ some "PGRST116") := by
  refine ⟨?_, ?_, ?_, ?_⟩
  · intro db userId h
    simp [getUserProfile, selectSingle, h, pgrst116Err]
  · intro db userId e h
    simp [getUserProfile, selectSingle, h]
  · intro db userId e h
    simp [getUserProfile, selectSingle, h]
  · intro db userId fault d e h
    cases fault with
    | some f =>
      by_cases hc : f.code = some "PGRST116"
      · simp [getUserProfile, selectSingle, hc] at h
      · simp [getUserProfile, selectSingle, hc] at h
        exact h.2 ▸ hc
    | none =>
      rcases hf : db.filter (fun r => r.id == userId) with _ | ⟨r, rest⟩
      · simp [getUserProfile, selectSingle, hf, pgrst116Err] at h
      · rcases rest with _ | ⟨r2, rest2⟩
        · simp [getUserProfile, selectSingle, hf] at h
        · simp [getUserProfile, selectSingle, hf, pgrst116Err] at h

/-- Witness for C10: a missing row on an empty table is reported as
success, and a distinct fetch failure is returned as-is. -/
theorem C10_witness :
    getUserProfile [] "id-1" none = (none, none) ∧
    getUserProfile [] "id-1" (some errBoom) = (none, some errBoom) :=
  ⟨C10_not_found_is_success.1 [] "id-1" rfl,
   C10_not_found_is_success.2.2.1 [] "id-1" errBoom (by decide)⟩

/-! ## C3 -/

/-- Inductive bound for the uniqueness loop, indexed by the remaining
budget `k` with `counter + k = 1000`: the number of suffix-appending
re-entries plus the counter never passes 1000, and whenever the escape
branch fired the resulting handle is the random synthesis. -/
theorem usernameLoop_bound (db : List ProfileRow) (base : Option String)
    (r2 : Nat) :
    ∀ (k counter : Nat) (cur : Option String), counter + k = 1000 →
      (usernameLoop db base r2 counter cur).2.1 + counter ≤ 1000 ∧
      ((usernameLoop db base r2 counter cur).2.2 = true →
        (usernameLoop db base r2 counter cur).1 =
          some ("user" ++ toString (r2 % 100000))) := by
  intro k
  induction k with
  | zero =>
    intro counter cur h
    rw [usernameLoop]
    by_cases he : usernameExists db cur = true
    · have hc : counter + 1 > 1000 := by omega
      simp [he, hc]
      omega
    · simp at he
      simp [he]
      omega
  | succ k ih =>
    intro counter cur h
    rw [usernameLoop]
    by_cases he : usernameExists db cur = true
    · have hc : ¬ (counter + 1 > 1000) := by omega
      rcases hu : usernameLoop db base r2 (counter + 1)
          (base.map (fun b => b ++ toString (counter + 1))) with ⟨res, n, esc⟩
      have hrec := ih (counter + 1)
        (base.map (fun b => b ++ toString (counter + 1))) (by omega)
      rw [hu] at hrec
      simp at hrec
      simp [he, hc, hu]
      exact ⟨by omega, fun hesc => hrec.2 hesc⟩
    · simp at he
      simp [he]
      omega

/-- C3: the trigger's handle-uniqueness loop, started as the trigger
starts it (counter 0), re-enters with an appended numeric suffix at most
1000 times; and whenever the 1000-iteration bound forces the escape
branch, the resulting handle is the fixed prefix `user` followed by a
random integer drawn from 0–99999, and the loop exits with it
unconditionally. -/
theorem C3_username_loop_bounded :
    ∀ (db : List ProfileRow) (base : Option String) (r2 : Nat)
      (cur : Option String),
      (usernameLoop db base r2 0 cur).2.1 ≤ 1000 ∧
      ((usernameLoop db base r2 0 cur).2.2 = false ∨
        (usernameLoop db base r2 0 cur).1 =
          some ("user" ++ toString (r2 % 100000))) ∧
      r2 % 100000 < 100000 := by
  intro db base r2 cur
  have h := usernameLoop_bound db base r2 1000 0 cur (by omega)
  refine ⟨by omega, ?_, Nat.mod_lt _ (by norm_num)⟩
  rcases hb : (usernameLoop db base r2 0 cur).2.2 with _ | _
  · exact Or.inl rfl
  · exact Or.inr (h.2 hb)

/-! ## C1 -/

/-- Counterexample for C1.  The claim says the trigger returns normally —
and the identity row therefore survives — under every failure of the
profile insert, including a failure of the one retry insert performed
after a uniqueness conflict.  But the retry insert runs inside the
`WHEN unique_violation` handler, where no further handler applies: when
the first insert hits a uniqueness conflict and the retry insert then
fails as well (here both rejected by the store, modelling a lost race),
the error escapes the trigger and aborts the identity-creation
transaction. -/
theorem C1_counterexample :
    handle_new_user [] c1User 0 0 7 (some DbError.uniqueViolation)
      (some DbError.uniqueViolation) =
      Except.error DbError.uniqueViolation := by
  simp [handle_new_user, resolvedUsername, insertProfile]

/-- C1 (amended): the trigger swallows every failure of its first profile
insert — a uniqueness conflict triggers exactly one retry under a random
handle, and any other error is logged and swallowed, so the
identity-creation transaction commits; the only way the trigger aborts the
transaction is that the first insert hit a uniqueness conflict and the
single retry insert then failed, in which case that retry error is the one
that escapes. -/
theorem C1_trigger_abort_characterization :
    ∀ (db : List ProfileRow) (u : IdentUser) (r1 r2 r3 : Nat)
      (fault1 fault2 : Option DbError),
      (∃ db', handle_new_user db u r1 r2 r3 fault1 fault2 = Except.ok db') ∨
      (insertProfile db (triggerRow u (resolvedUsername db u r1 r2)) fault1 =
          Except.error DbError.uniqueViolation ∧
        ∃ e, insertProfile db
            (triggerRow u (some ("user" ++ toString (r3 % 100000)))) fault2 =
            Except.error e ∧
          handle_new_user db u r1 r2 r3 fault1 fault2 = Except.error e) := by
  intro db u r1 r2 r3 f1 f2
  cases h1 : insertProfile db (triggerRow u (resolvedUsername db u r1 r2)) f1 with
  | ok db' => exact Or.inl ⟨db', by simp [handle_new_user, h1]⟩
  | error e1 =>
    cases e1 with
    | otherError m => exact Or.inl ⟨db, by simp [handle_new_user, h1]⟩
    | uniqueViolation =>
      cases h2 : insertProfile db
          (triggerRow u (some ("user" ++ toString (r3 % 100000)))) f2 with
      | ok db' => exact Or.inl ⟨db', by simp [handle_new_user, h1, h2]⟩
      | error e2 => exact Or.inr ⟨rfl, e2, rfl, by simp [handle_new_user, h1, h2]⟩

/-! ## C2 -/

/-- Counterexample for C2.  In the claim's scenario the fetch finds no
row while another actor has already created the profile, so a create
attempt would hit the primary-key conflict, and the claim says
`ensureUserProfile` treats that as "someone else already created it":
re-fetches and returns the existing profile successfully.  The code never
gets that far: its authenticated-user check binds the `data` property of
`getCurrentUser`'s `{ user, error }` result, which does not exist, so even
with a live session it returns data null with the `No authenticated user`
error — no create is attempted, no conflict arises, and no re-fetch
happens; the existing row is not returned. -/
theorem C2_counterexample :
    ensureUserProfile [] [c2Row] "id-2" none none (some c2User) none =
      ((none, some noAuthUserErr), [c2Row]) := by
  decide

/-- C2 (amended): the create attempt of fetch-or-create is unreachable:
whenever the profile fetch yields no row, `ensureUserProfile` returns data
null with the `No authenticated user` error — for every session state,
every table state at create time and every injected create fault — so a
client-side primary-key conflict can never arise and no
re-fetch-on-conflict behavior exists; the table is left untouched. -/
theorem C2_no_create_no_refetch :
    ∀ (dbFetch dbCreate : List ProfileRow) (userId : String)
      (userData : Option Metadata) (fetchFault : Option SbErr)
      (current : Option IdentUser) (createFault : Option SbErr),
      (getUserProfile dbFetch userId fetchFault).1 = none →
      ensureUserProfile dbFetch dbCreate userId userData fetchFault current
        createFault = ((none, some noAuthUserErr), dbCreate) := by
  intro dbF dbC uid ud ff current cf h
  rcases hg : getUserProfile dbF uid ff with ⟨d, e⟩
  rw [hg] at h
  simp at h
  subst h
  simp [ensureUserProfile, hg, getCurrentUserData]

/-- Witness for C2's amended theorem: the fetch misses (the table holds
only an unrelated row), the profile row exists at create time and a
session is live, yet the result is the `No authenticated user` error with
the table untouched. -/
theorem C2_witness :
    ensureUserProfile [rowFull] [rowFull, c2Row] "id-2" none none
      (some c2User) none = ((none, some noAuthUserErr), [rowFull, c2Row]) :=
  C2_no_create_no_refetch [rowFull] [rowFull, c2Row] "id-2" none none
    (some c2User) none (by decide)

/-! ## C6 -/

/-- C6: the claim — fetch-or-create run twice in sequence yields a
Profile with the identity's id both times and creates no second row — is
the source's evident intent (its own comment announces "If no profile
exists, create one", and the correct `getCurrentUser` destructuring is
used elsewhere in the reconciler), but the code cannot create: the
mis-destructured binding disables the create path.  At the failing input
— a live session for `c6User` and an empty profile table — both
sequential calls return data null with the `No authenticated user` error,
no Profile is ever yielded, and the table stays empty.  This theorem
evaluates the code at that failing input. -/
theorem C6_code_bug_eval :
    ensureUserProfile [] [] "id-6" none none (some c6User) none =
      ((none, some noAuthUserErr), []) ∧
    ensureUserProfile
        ((ensureUserProfile [] [] "id-6" none none (some c6User) none).2)
        ((ensureUserProfile [] [] "id-6" none none (some c6User) none).2)
        "id-6" none none (some c6User) none =
      ((none, some noAuthUserErr), []) ∧
    countId ((ensureUserProfile [] [] "id-6" none none (some c6User) none).2)
      "id-6" = 0 := by
  decide

/-! ## C4 -/

/-- C4: every view-model field the caller leaves out of a partial update
is absent from the cleaned write payload, and the store's update of the
matched row therefore leaves the corresponding column (as well as the
never-written `id` and `username` columns) unchanged. -/
theorem C4_strip_and_frame :
    ∀ (upd : AuthUserUpdate) (r : ProfileRow),
      (upd.firstName = none → (profileUpdatesOf upd).first_name = none ∧
        (applyPayload r (profileUpdatesOf upd)).first_name = r.first_name) ∧
      (upd.lastName = none → (profileUpdatesOf upd).last_name = none ∧
        (applyPayload r (profileUpdatesOf upd)).last_name = r.last_name) ∧
      (upd.bio = none → (profileUpdatesOf upd).bio = none ∧
        (applyPayload r (profileUpdatesOf upd)).bio = r.bio) ∧
      (upd.dateOfBirth = none → (profileUpdatesOf upd).date_of_birth = none ∧
        (applyPayload r (profileUpdatesOf upd)).date_of_birth = r.date_of_birth) ∧
      (upd.phone = none → (profileUpdatesOf upd).phone = none ∧
        (applyPayload r (profileUpdatesOf upd)).phone = r.phone) ∧
      (upd.location = none → (profileUpdatesOf upd).location = none ∧
        (applyPayload r (profileUpdatesOf upd)).location = r.location) ∧
      (upd.avatar = none → (profileUpdatesOf upd).avatar_url = none ∧
        (applyPayload r (profileUpdatesOf upd)).avatar_url = r.avatar_url) ∧
      (upd.academicInfo = none → (profileUpdatesOf upd).academic_info = none ∧
        (applyPayload r (profileUpdatesOf upd)).academic_info = r.academic_info) ∧
      (upd.preferences = none → (profileUpdatesOf upd).preferences = none ∧
        (applyPayload r (profileUpdatesOf upd)).preferences = r.preferences) ∧
      (applyPayload r (profileUpdatesOf upd)).id = r.id ∧
      (applyPayload r (profileUpdatesOf upd)).username = r.username := by
  intro upd r
  refine ⟨?_, ?_, ?_, ?_, ?_, ?_, ?_, ?_, ?_, rfl, rfl⟩ <;>
    (intro h; simp [profileUpdatesOf, applyPayload, h])

/-- Witness for C4: the spec's example — an update supplying only
`bio = "x"` ships no `location` key and leaves the stored `location`
column unchanged. -/
theorem C4_witness :
    (profileUpdatesOf updBioX).location = none ∧
    (applyPayload rowFull (profileUpdatesOf updBioX)).location =
      rowFull.location :=
  (C4_strip_and_frame updBioX rowFull).2.2.2.2.2.1 rfl

/-! ## C5 -/

/-- C5: when the remote profile write fails (here: an injected store
error, or equally the absence of the row), `updateProfile` leaves the
in-memory user unchanged — no optimistic mutation happened before the
acknowledgement — and rethrows the store error's message to its caller. -/
theorem C5_failed_update_leaves_user :
    ∀ (st : AuthState) (u : AuthUser) (upd : AuthUserUpdate)
      (db : List ProfileRow) (fault mirrorFault : Option SbErr)
      (d : Option ProfileRow) (e : SbErr) (db2 : List ProfileRow),
      st.user = some u →
      updateUserProfileData db u.id (profileUpdatesOf upd) fault =
        (d, some e, db2) →
      (updateProfile st upd db fault mirrorFault).1.user = st.user ∧
      (updateProfile st upd db fault mirrorFault).2.2 =
        Except.error e.message := by
  intro st u upd db f mf d e db2 hu hw
  simp [updateProfile, hu, hw, authReducer]

/-- Witness for C5: a forced write failure leaves the fixture user in
place and surfaces the error message. -/
theorem C5_witness :
    (updateProfile stateFull updBioX [rowFull] (some errBoom) none).1.user =
      stateFull.user ∧
    (updateProfile stateFull updBioX [rowFull] (some errBoom) none).2.2 =
      Except.error errBoom.message :=
  C5_failed_update_leaves_user stateFull userFull updBioX [rowFull]
    (some errBoom) none none errBoom [rowFull] rfl (by decide)

/-! ## C8 -/

/-- C8: after a successful update, the in-memory user is exactly the
previous user overwritten with the caller-supplied fields — computed from
the caller's argument alone, not from the server's response: every
supplied field carries the caller's value and every unsupplied field is
unchanged. -/
theorem C8_success_applies_caller_fields :
    ∀ (st : AuthState) (u : AuthUser) (upd : AuthUserUpdate)
      (db : List ProfileRow) (mirrorFault : Option SbErr)
      (st2 : AuthState) (db2 : List ProfileRow),
      st.user = some u →
      updateProfile st upd db none mirrorFault = (st2, db2, Except.ok ()) →
      st2.user = some (authUserSpread u upd) ∧
      (∀ v, upd.id = some v → (authUserSpread u upd).id = v) ∧
      (upd.id = none → (authUserSpread u upd).id = u.id) ∧
      (∀ v, upd.email = some v → (authUserSpread u upd).email = v) ∧
      (upd.email = none → (authUserSpread u upd).email = u.email) ∧
      (∀ v, upd.username = some v → (authUserSpread u upd).username = v) ∧
      (upd.username = none → (authUserSpread u upd).username = u.username) ∧
      (∀ v, upd.firstName = some v → (authUserSpread u upd).firstName = v) ∧
      (upd.firstName = none → (authUserSpread u upd).firstName = u.firstName) ∧
      (∀ v, upd.lastName = some v → (authUserSpread u upd).lastName = v) ∧
      (upd.lastName = none → (authUserSpread u upd).lastName = u.lastName) ∧
      (∀ v, upd.avatar = some v → (authUserSpread u upd).avatar = v) ∧
      (upd.avatar = none → (authUserSpread u upd).avatar = u.avatar) ∧
      (∀ v, upd.bio = some v → (authUserSpread u upd).bio = v) ∧
      (upd.bio = none → (authUserSpread u upd).bio = u.bio) ∧
      (∀ v, upd.dateOfBirth = some v →
        (authUserSpread u upd).dateOfBirth = some v) ∧
      (upd.dateOfBirth = none →
        (authUserSpread u upd).dateOfBirth = u.dateOfBirth) ∧
      (∀ v, upd.phone = some v → (authUserSpread u upd).phone = v) ∧
      (upd.phone = none → (authUserSpread u upd).phone = u.phone) ∧
      (∀ v, upd.location = some v → (authUserSpread u upd).location = v) ∧
      (upd.location = none → (authUserSpread u upd).location = u.location) ∧
      (∀ v, upd.joinDate = some v → (authUserSpread u upd).joinDate = v) ∧
      (upd.joinDate = none → (authUserSpread u upd).joinDate = u.joinDate) ∧
      (∀ v, upd.lastLogin = some v → (authUserSpread u upd).lastLogin = v) ∧
      (upd.lastLogin = none → (authUserSpread u upd).lastLogin = u.lastLogin) ∧
      (∀ v, upd.isEmailVerified = some v →
        (authUserSpread u upd).isEmailVerified = v) ∧
      (upd.isEmailVerified = none →
        (authUserSpread u upd).isEmailVerified = u.isEmailVerified) ∧
      (∀ v, upd.preferences = some v →
        (authUserSpread u upd).preferences = v) ∧
      (upd.preferences = none →
        (authUserSpread u upd).preferences = u.preferences) ∧
      (∀ v, upd.academicInfo = some v →
        (authUserSpread u upd).academicInfo = v) ∧
      (upd.academicInfo = none →
        (authUserSpread u upd).academicInfo = u.academicInfo) := by
  intro st u upd db mf st2 db2 hu heq
  rcases hw : updateUserProfileData db u.id (profileUpdatesOf upd) none with
    ⟨dd, oe, dbx⟩
  cases oe with
  | some e => simp [updateProfile, hu, hw] at heq
  | none =>
    have hst2 : st2.user = some (authUserSpread u upd) := by
      simp [updateProfile, hu, hw] at heq
      rw [← heq.1]
      simp [authReducer, hu]
    refine ⟨hst2, ?_, ?_, ?_, ?_, ?_, ?_, ?_, ?_, ?_, ?_, ?_, ?_, ?_, ?_, ?_,
      ?_, ?_, ?_, ?_, ?_, ?_, ?_, ?_, ?_, ?_, ?_, ?_, ?_, ?_, ?_⟩ <;>
      intros <;> simp_all [authUserSpread]

/-- Witness for C8: the spec's example run — updating only `bio` on the
fixture state succeeds, and the resulting in-memory user is the spread of
the old user with that single field. -/
theorem C8_witness :
    (updateProfile stateFull updBioX [rowFull] none none).1.user =
      some (authUserSpread userFull updBioX) :=
  (C8_success_applies_caller_fields stateFull userFull updBioX [rowFull] none
    (updateProfile stateFull updBioX [rowFull] none none).1
    (updateProfile stateFull updBioX [rowFull] none none).2.1
    rfl rfl).1

/-! ## C7 -/

/-- Counterexample for C7.  The claim's precedence — "explicit Profile
column value if present, else Identity metadata value" — fails for a
present but JS-falsy column value: `c7Profile` holds the explicit (table
default) empty string in its `first_name` column, yet the derived view
model shows the metadata value `"Bob"`, because the merge uses JS `||`
and an empty string is falsy. -/
theorem C7_counterexample :
    (convertToAuthUser c7User (some c7Profile) "t").firstName = "Bob" ∧
    (some c7Profile).map (fun p => p.first_name) = some "" ∧
    ("Bob" : String) ≠ "" := by
  decide

/-- C7 (amended): for every profile-backed field of the view model, the
merge precedence is: the Profile column value when present and JS-truthy
(non-empty string, non-zero number; object-valued fields — the enrolled
subjects list and the notification toggles — by presence alone), else the
Identity-derived value (metadata, with the email local-part as the
handle's second source) under the same truthiness, else the
field-specific default; in particular, with metadata
`{email: "alice@example.com"}` and no Profile row, the derived handle is
`"alice"` and the avatar is the templated dicebear default containing
that email. -/
theorem C7_merge_precedence_truthy :
    ∀ (user : IdentUser) (profile : Option ProfileRow) (now : String),
      (convertToAuthUser user profile now).username =
        (truthyS (profile.bind (fun p => p.username)) <|>
          truthyS (user.user_metadata.getD {}).username <|>
          truthyS (user.email.map localPart)).getD "" ∧
      (convertToAuthUser user profile now).firstName =
        (truthyS (profile.map (fun p => p.first_name)) <|>
          truthyS (user.user_metadata.getD {}).firstName <|>
          truthyS (user.user_metadata.getD {}).first_name).getD "" ∧
      (convertToAuthUser user profile now).lastName =
        (truthyS (profile.map (fun p => p.last_name)) <|>
          truthyS (user.user_metadata.getD {}).lastName <|>
          truthyS (user.user_metadata.getD {}).last_name).getD "" ∧
      (convertToAuthUser user profile now).avatar =
        (truthyS (profile.bind (fun p => p.avatar_url)) <|>
          truthyS (user.user_metadata.getD {}).avatar).getD
          (dicebearSeed user.email) ∧
      (convertToAuthUser user profile now).bio =
        (truthyS (profile.bind (fun p => p.bio)) <|>
          truthyS (user.user_metadata.getD {}).bio).getD "" ∧
      (convertToAuthUser user profile now).dateOfBirth =
        (truthyS (profile.bind (fun p => p.date_of_birth)) <|>
          truthyS (user.user_metadata.getD {}).dateOfBirth) ∧
      (convertToAuthUser user profile now).phone =
        (truthyS (profile.bind (fun p => p.phone)) <|>
          truthyS (user.user_metadata.getD {}).phone).getD "" ∧
      (convertToAuthUser user profile now).location =
        (truthyS (profile.bind (fun p => p.location)) <|>
          truthyS (user.user_metadata.getD {}).location).getD "" ∧
      (convertToAuthUser user profile now).preferences.theme =
        (truthyS (profile.bind (fun p => p.preferences.theme)) <|>
          truthyS (user.user_metadata.getD {}).theme).getD "light" ∧
      (convertToAuthUser user profile now).preferences.language =
        (truthyS (profile.bind (fun p => p.preferences.language)) <|>
          truthyS (user.user_metadata.getD {}).language).getD "en" ∧
      (convertToAuthUser user profile now).academicInfo.studentId =
        (truthyS (profile.bind (fun p => p.academic_info.studentId)) <|>
          truthyS (user.user_metadata.getD {}).studentId).getD "" ∧
      (convertToAuthUser user profile now).academicInfo.major =
        (truthyS (profile.bind (fun p => p.academic_info.major)) <|>
          truthyS (user.user_metadata.getD {}).major).getD "" ∧
      (convertToAuthUser user profile now).academicInfo.year =
        (truthyS (profile.bind (fun p => p.academic_info.year)) <|>
          truthyS (user.user_metadata.getD {}).year).getD "" ∧
      (convertToAuthUser user profile now).academicInfo.gpa =
        (truthyZ (profile.bind (fun p => p.academic_info.gpa)) <|>
          truthyZ (user.user_metadata.getD {}).gpa).getD 0 ∧
      (convertToAuthUser user profile now).academicInfo.enrolledSubjects =
        ((profile.bind (fun p => p.academic_info.enrolledSubjects)) <|>
          (user.user_metadata.getD {}).enrolledSubjects).getD [] ∧
      (convertToAuthUser user profile now).preferences.notifications.email =
        ((profile.bind (fun p => p.preferences.notifications.bind
            (fun n => n.email))) <|>
          ((user.user_metadata.getD {}).notifications.bind
            (fun n => n.email))).getD true ∧
      (convertToAuthUser user profile now).preferences.notifications.push =
        ((profile.bind (fun p => p.preferences.notifications.bind
            (fun n => n.push))) <|>
          ((user.user_metadata.getD {}).notifications.bind
            (fun n => n.push))).getD true ∧
      (convertToAuthUser user profile now).preferences.notifications.assignments =
        ((profile.bind (fun p => p.preferences.notifications.bind
            (fun n => n.assignments))) <|>
          ((user.user_metadata.getD {}).notifications.bind
            (fun n => n.assignments))).getD true ∧
      (convertToAuthUser user profile now).preferences.notifications.grades =
        ((profile.bind (fun p => p.preferences.notifications.bind
            (fun n => n.grades))) <|>
          ((user.user_metadata.getD {}).notifications.bind
            (fun n => n.grades))).getD true ∧
      (convertToAuthUser user profile now).preferences.notifications.announcements =
        ((profile.bind (fun p => p.preferences.notifications.bind
            (fun n => n.announcements))) <|>
          ((user.user_metadata.getD {}).notifications.bind
            (fun n => n.announcements))).getD false ∧
      (convertToAuthUser aliceUser none "t").username = "alice" ∧
      (convertToAuthUser aliceUser none "t").avatar =
        "https://api.dicebear.com/7.x/avataaars/svg?seed=alice@example.com" := by
  intro user profile now
  refine ⟨?_, ?_, ?_, ?_, ?_, ?_, ?_, ?_, ?_, ?_, ?_, ?_, ?_, ?_, ?_, ?_, ?_,
    ?_, ?_, ?_, ?_, ?_⟩
  case _ => simp [convertToAuthUser, jsOrD_eq_truthy, orElse_getD]
  case _ => simp [convertToAuthUser, jsOrD_eq_truthy, orElse_getD]
  case _ => simp [convertToAuthUser, jsOrD_eq_truthy, orElse_getD]
  case _ => simp [convertToAuthUser, jsOrD_eq_truthy, orElse_getD]
  case _ => simp [convertToAuthUser, jsOrD_eq_truthy, orElse_getD]
  case _ =>
    simp only [convertToAuthUser]
    cases truthyS (profile.bind (fun p => p.date_of_birth)) <;> simp
  case _ => simp [convertToAuthUser, jsOrD_eq_truthy, orElse_getD]
  case _ => simp [convertToAuthUser, jsOrD_eq_truthy, orElse_getD]
  case _ => simp [convertToAuthUser, jsOrD_eq_truthy, orElse_getD]
  case _ => simp [convertToAuthUser, jsOrD_eq_truthy, orElse_getD]
  case _ => simp [convertToAuthUser, jsOrD_eq_truthy, orElse_getD]
  case _ => simp [convertToAuthUser, jsOrD_eq_truthy, orElse_getD]
  case _ => simp [convertToAuthUser, jsOrD_eq_truthy, orElse_getD]
  case _ => simp [convertToAuthUser, jsOrZ_eq_truthy, orElse_getD]
  case _ => simp [convertToAuthUser]
  case _ => simp [convertToAuthUser]
  case _ => simp [convertToAuthUser]
  case _ => simp [convertToAuthUser]
  case _ => simp [convertToAuthUser]
  case _ => simp [convertToAuthUser]
  case _ => decide
  case _ => decide
